import Mathlib

/-!
Verification development for the product-catalog service (Spring Boot backend).

The definitions below are a shallow embedding of the Java sources:
- entity/Product.java (stock mutators, derived flags),
- service/ProductService.java (updateStock, searchProducts, paged reads),
- repository/ProductRepository.java (the searchProducts JPQL query),
- controller/ProductController.java (the paged GET /products endpoint),
- exception/GlobalExceptionHandler.java (exception to HTTP status dispatch),
- security/JwtUtil.java (token creation and validation),
- service/AuthService.java (authenticate, register).

Modelling conventions:
- Java int is modelled as Int together with wrap32, which reduces a
  mathematical integer modulo 2^32 into [-2^31, 2^31): Java arithmetic such
  as Math.abs and + wraps on overflow and the model keeps that behaviour.
- BigDecimal prices are modelled as integers (an exact scaled representation);
  the claims under study only compare prices, never round them.
- LocalDateTime and Date values are modelled as natural numbers
  (milliseconds); BCrypt is modelled as an injective tagging function; the
  HMAC signature of a JWT is modelled as the pair of the signing key and the
  signed payload, so a signature verifies exactly when it was produced with
  the same key over the same payload.
- The database tables are modelled as lists of rows; JPA save is modelled
  with Hibernate dirty checking: saving an entity equal to the stored row
  issues no UPDATE, so Spring auditing does not touch the updatedAt column,
  while saving a modified entity refreshes updatedAt (LastModifiedDate).
-/

/-! ## Java 32-bit integer arithmetic -/

def INT_MIN : Int := -(2 ^ 31)

def INT_MAX : Int := 2 ^ 31 - 1

/-- Reduce an integer into the Java int range, wrapping as two-complement
arithmetic does. -/
def wrap32 (x : Int) : Int := (x + 2 ^ 31) % 2 ^ 32 - 2 ^ 31

/-- Java Math.abs on int: negation of Integer.MIN_VALUE overflows back to
Integer.MIN_VALUE. -/
def javaAbs (x : Int) : Int := if x < 0 then wrap32 (-x) else x

/-! ## Product entity (entity/Product.java) -/

structure Product where
  id : Nat
  name : String
  description : Option String
  price : Int
  category : Option String
  stockQuantity : Int
  createdAt : Nat
  updatedAt : Nat
deriving Repr, DecidableEq

/-- Lines 82-84 of Product.java: in stock means stock quantity above zero. -/
def Product.isInStock (p : Product) : Bool := p.stockQuantity > 0

/-- Lines 90-92 of Product.java: low stock means stock quantity below 10. -/
def Product.isLowStock (p : Product) : Bool := p.stockQuantity < 10

/-- Error raised by the stock mutators (IllegalArgumentException carrying one
of the two messages below). -/
inductive StockErr where
  | quantityNotPositive
  | insufficientStock
deriving Repr, DecidableEq

def StockErr.message : StockErr → String
  | .quantityNotPositive => "Quantity must be positive"
  | .insufficientStock => "Insufficient stock"

/-- Lines 99-107 of Product.java. The null guard of the Java code is covered
by quantity being a total Int here; the subtraction is Java int arithmetic. -/
def Product.decreaseStock (p : Product) (quantity : Int) : Except StockErr Product :=
  if quantity ≤ 0 then .error .quantityNotPositive
  else if quantity > p.stockQuantity then .error .insufficientStock
  else .ok { p with stockQuantity := wrap32 (p.stockQuantity - quantity) }

/-- Lines 114-119 of Product.java; the addition is Java int arithmetic. -/
def Product.increaseStock (p : Product) (quantity : Int) : Except StockErr Product :=
  if quantity ≤ 0 then .error .quantityNotPositive
  else .ok { p with stockQuantity := wrap32 (p.stockQuantity + quantity) }

/-! ## Catalog store (products table) -/

/-- Catalog table: a list of product rows. -/
abbrev Db := List Product

/-- JpaRepository findById. -/
def findById (db : Db) (id : Nat) : Option Product :=
  db.find? (fun p => p.id == id)

/-- Stock quantity of the row with the given id, when present. -/
def stockOf (db : Db) (id : Nat) : Option Int :=
  (findById db id).map (fun p => p.stockQuantity)

/-- JpaRepository save, with Hibernate dirty checking and Spring JPA
auditing: an entity equal to its stored row is not dirty, no UPDATE is
issued and no auditing callback runs; a modified entity is written back
with updatedAt refreshed (the LastModifiedDate column of Product.java,
lines 59-61); an entity with a fresh id is inserted with both audit
timestamps set. -/
def saveProduct (db : Db) (p : Product) (now : Nat) : Product × Db :=
  match findById db p.id with
  | some stored =>
      if stored = p then (stored, db)
      else
        let q := { p with updatedAt := now }
        (q, db.map (fun r => if r.id = p.id then q else r))
  | none =>
      let q := { p with createdAt := now, updatedAt := now }
      (q, db ++ [q])

/-! ## Product DTO (dto/ProductResponse.java) -/

structure ProductResponse where
  id : Nat
  name : String
  description : Option String
  price : Int
  category : Option String
  stockQuantity : Int
  createdAt : Nat
  updatedAt : Nat
  inStock : Bool
  lowStock : Bool
deriving Repr, DecidableEq

/-- Constructor ProductResponse(Product), lines 85-98 of the DTO: copies the
columns and computes the derived flags. The formatted price string is a pure
rendering of the price field and carries no extra information. -/
def ProductResponse.ofProduct (p : Product) : ProductResponse :=
  { id := p.id
    name := p.name
    description := p.description
    price := p.price
    category := p.category
    stockQuantity := p.stockQuantity
    createdAt := p.createdAt
    updatedAt := p.updatedAt
    inStock := p.isInStock
    lowStock := p.isLowStock }

/-! ## ProductService.updateStock (service/ProductService.java, lines 745-770) -/

/-- Exceptions thrown by ProductService: the RuntimeException raised when the
row is absent, and the rethrown IllegalArgumentException message from the
stock mutators. -/
inductive SvcErr where
  | productNotFound
  | runtimeMessage (msg : String)
deriving Repr, DecidableEq

/-- ProductService.updateStock: loads the product, dispatches on the sign of
quantity (positive adds, negative subtracts the Java absolute value, zero
takes neither branch), saves, and wraps the saved row into a response. The
second component is the resulting table: on any thrown exception the save is
never reached and the table is unchanged. -/
def ProductService.updateStock (db : Db) (id : Nat) (quantity : Int) (now : Nat) :
    Except SvcErr ProductResponse × Db :=
  match findById db id with
  | none => (.error .productNotFound, db)
  | some p =>
      let stepped : Except StockErr Product :=
        if quantity > 0 then p.increaseStock quantity
        else if quantity < 0 then p.decreaseStock (javaAbs quantity)
        else .ok p
      match stepped with
      | .error e => (.error (.runtimeMessage e.message), db)
      | .ok p' =>
          let r := saveProduct db p' now
          (.ok (ProductResponse.ofProduct r.1), r.2)

/-! ## Search (repository/ProductRepository.java lines 161-171,
service/ProductService.java lines 676-686) -/

/-- SQL LIKE pattern matching, on fuel so that the recursion is structural
and computes inside the kernel: the percent character matches any sequence
of characters, the underscore matches any single character, every other
pattern character matches itself. Every step shrinks the pattern or the
text, so fuel equal to the sum of both lengths plus one never runs out. -/
def likeMatchAux : Nat → List Char → List Char → Bool
  | 0, _, _ => false
  | _ + 1, [], [] => true
  | _ + 1, [], _ :: _ => false
  | fuel + 1, '%' :: ps, t =>
      likeMatchAux fuel ps t ||
        (match t with
         | [] => false
         | _ :: ts => likeMatchAux fuel ('%' :: ps) ts)
  | fuel + 1, '_' :: ps, t =>
      (match t with
       | [] => false
       | _ :: ts => likeMatchAux fuel ps ts)
  | fuel + 1, c :: ps, t =>
      (match t with
       | [] => false
       | d :: ts => c = d && likeMatchAux fuel ps ts)

def likeMatch (ps t : List Char) : Bool :=
  likeMatchAux (ps.length + t.length + 1) ps t

/-- Lowercase a string, character by character, as the SQL LOWER function
does; stated on the character list so that it computes inside the kernel. -/
def lowerChars (s : String) : List Char := s.data.map Char.toLower

/-- The name clause of the query: LOWER of the name column LIKE LOWER of the
concatenation percent, criterion, percent. -/
def nameLikeCond (crit : String) (p : Product) : Bool :=
  likeMatch ('%' :: (lowerChars crit ++ ['%'])) (lowerChars p.name)

/-- Clause: name IS NULL OR LOWER(name) LIKE the lowered pattern. -/
def clauseName (name : Option String) (p : Product) : Bool :=
  match name with
  | none => true
  | some n => nameLikeCond n p

/-- Clause: category IS NULL OR the category column equals it (SQL equality
against a NULL column is not satisfied). -/
def clauseCategory (category : Option String) (p : Product) : Bool :=
  match category with
  | none => true
  | some c => p.category = some c

/-- Clause: minPrice IS NULL OR price at least minPrice. -/
def clauseMinPrice (minPrice : Option Int) (p : Product) : Bool :=
  match minPrice with
  | none => true
  | some m => m ≤ p.price

/-- Clause: maxPrice IS NULL OR price at most maxPrice. -/
def clauseMaxPrice (maxPrice : Option Int) (p : Product) : Bool :=
  match maxPrice with
  | none => true
  | some m => p.price ≤ m

/-- Clause: inStock IS NULL OR (inStock = true AND stock above zero) OR
(inStock = false), mirroring the disjunctive shape of the query. -/
def clauseInStock (inStock : Option Bool) (p : Product) : Bool :=
  match inStock with
  | none => true
  | some b => (b && p.stockQuantity > 0) || !b

/-- ProductRepository.searchProducts: the conjunction of the five clauses as
written in the JPQL annotation. -/
def ProductRepository.searchProducts (db : Db) (name category : Option String)
    (minPrice maxPrice : Option Int) (inStock : Option Bool) : List Product :=
  db.filter (fun p =>
    clauseName name p && clauseCategory category p && clauseMinPrice minPrice p &&
      clauseMaxPrice maxPrice p && clauseInStock inStock p)

/-- ProductService.searchProducts: delegates to the repository and maps the
rows into responses. -/
def ProductService.searchProducts (db : Db) (name category : Option String)
    (minPrice maxPrice : Option Int) (inStock : Option Bool) : List ProductResponse :=
  (ProductRepository.searchProducts db name category minPrice maxPrice inStock).map
    ProductResponse.ofProduct

/-- Decidable prefix test on character lists. -/
def isPrefixChars : List Char → List Char → Bool
  | [], _ => true
  | _ :: _, [] => false
  | a :: as, b :: bs => a = b && isPrefixChars as bs

/-- Decidable contiguous-sublist test on character lists. -/
def isInfixChars (needle : List Char) : List Char → Bool
  | [] => needle.isEmpty
  | b :: bs => isPrefixChars needle (b :: bs) || isInfixChars needle bs

/-- Modelled from the claim wording (not from the source): a present name
criterion read as a plain case-insensitive substring of the product name.
Used to compare the specified semantics with the LIKE semantics of the
query. -/
def specNameSubstring (crit : String) (p : Product) : Bool :=
  isInfixChars (lowerChars crit) (lowerChars p.name)

/-! ## Pagination (Spring Data page over findAll, used by
ProductService.getAllProducts lines 491-495 and the controller) -/

structure PageResult (α : Type) where
  content : List α
  totalElements : Nat
  totalPages : Nat
  number : Nat
  first : Bool
  last : Bool
deriving Repr, DecidableEq

/-- Spring Data page construction over the full sorted row list: the page
content is the size-bounded window starting at page times size, total pages
is the ceiling of the row count by the page size, the first flag holds on
page zero, and the last flag holds when no further page exists. -/
def pageOf {α : Type} (rows : List α) (page size : Nat) : PageResult α :=
  { content := (rows.drop (page * size)).take size
    totalElements := rows.length
    totalPages := if size = 0 then 1 else (rows.length + size - 1) / size
    number := page
    first := page = 0
    last := decide ((if size = 0 then 1 else (rows.length + size - 1) / size) ≤ page + 1) }

def PageResult.map {α β : Type} (f : α → β) (pr : PageResult α) : PageResult β :=
  { content := pr.content.map f
    totalElements := pr.totalElements
    totalPages := pr.totalPages
    number := pr.number
    first := pr.first
    last := pr.last }

/-! ## Controller and exception dispatch
(controller/ProductController.java lines 93-111,
exception/GlobalExceptionHandler.java) -/

/-- Sortable properties of the Product entity; Spring Data resolves the sort
field against these attribute names and raises PropertyReferenceException on
anything else. -/
def productProperties : List String :=
  ["id", "name", "description", "price", "category", "stockQuantity",
    "createdAt", "updatedAt"]

/-- Exception taxonomy reaching the global handler. PropertyReferenceException
(Spring Data, raised for an unknown sort property) is a RuntimeException that
matches none of the dedicated handlers. -/
inductive AppExc where
  | methodArgumentNotValid
  | badCredentials (msg : String)
  | accessDenied
  | resourceNotFound (msg : String)
  | business (msg : String)
  | propertyReference (prop : String)
  | runtime (msg : String)
deriving Repr, DecidableEq

/-- GlobalExceptionHandler: the most specific handler wins; every
RuntimeException not matched by a dedicated handler falls to
handleRuntimeException (lines 131-146) and yields HTTP 500. -/
def GlobalExceptionHandler.statusOf : AppExc → Nat
  | .methodArgumentNotValid => 400
  | .badCredentials _ => 401
  | .accessDenied => 403
  | .resourceNotFound _ => 404
  | .business _ => 400
  | .propertyReference _ => 500
  | .runtime _ => 500

/-- Field comparison used for sorting rows by a named Product property. -/
def fieldLe (sortBy : String) (p q : Product) : Bool :=
  if sortBy = "name" then p.name ≤ q.name
  else if sortBy = "description" then
    (match p.description, q.description with
     | none, _ => true
     | some _, none => false
     | some a, some b => a ≤ b)
  else if sortBy = "price" then p.price ≤ q.price
  else if sortBy = "category" then
    (match p.category, q.category with
     | none, _ => true
     | some _, none => false
     | some a, some b => a ≤ b)
  else if sortBy = "stockQuantity" then p.stockQuantity ≤ q.stockQuantity
  else if sortBy = "createdAt" then p.createdAt ≤ q.createdAt
  else if sortBy = "updatedAt" then p.updatedAt ≤ q.updatedAt
  else p.id ≤ q.id

/-- ProductController.getAllProducts: builds the sort (descending exactly when
sortDir equals desc ignoring case) and the page request, then reads the page
through the service. PageRequest rejects a page size below one; resolving an
unknown sort property raises PropertyReferenceException out of findAll; the
controller has no catch, so both escape to the global handler. -/
def ProductController.getAllProducts (db : Db) (page size : Nat)
    (sortBy sortDir : String) : Except AppExc (PageResult ProductResponse) :=
  if size = 0 then .error (.runtime "Page size must not be less than one")
  else if sortBy ∈ productProperties then
    let desc := lowerChars sortDir = "desc".data
    let sorted := db.mergeSort (fun p q => if desc then fieldLe sortBy q p else fieldLe sortBy p q)
    .ok ((pageOf sorted page size).map ProductResponse.ofProduct)
  else .error (.propertyReference sortBy)

/-! ## Identity and credentials (entity User, dto/AuthRequest.java) -/

inductive Role where
  | USER
  | ADMIN
deriving Repr, DecidableEq

/-- Enum name of a role, as embedded into token claims by JwtUtil. -/
def Role.name : Role → String
  | .USER => "USER"
  | .ADMIN => "ADMIN"

structure User where
  id : Nat
  email : String
  password : String
  role : Role
deriving Repr, DecidableEq

/-- BCrypt encoding, modelled as an injective tagging of the raw password. -/
def encodePassword (raw : String) : String := "bcrypt$" ++ raw

/-- BCrypt match of a raw password against a stored hash. -/
def passwordMatches (raw hashed : String) : Bool := hashed = encodePassword raw

/-- Users table with the identity-generated next id. -/
structure AuthDb where
  users : List User
  nextId : Nat
deriving Repr, DecidableEq

/-- UserRepository.findByEmail. -/
def findByEmail (db : AuthDb) (email : String) : Option User :=
  db.users.find? (fun u => u.email == email)

/-- UserRepository.existsByEmail. -/
def existsByEmail (db : AuthDb) (email : String) : Bool :=
  (findByEmail db email).isSome

/-! ## Token codec (security/JwtUtil.java) -/

/-- Payload of a token: the two custom claims JwtUtil may add, the subject,
issued-at and expiry. A missing entry of the claims map is none. -/
structure TokenClaims where
  role : Option String
  userId : Option Nat
  sub : String
  iat : Nat
  exp : Nat
deriving Repr, DecidableEq

/-- HMAC signature over a payload, modelled as the signing key paired with
the payload: two signatures agree exactly when key and payload agree. -/
def signPayload (key : String) (c : TokenClaims) : String × TokenClaims := (key, c)

structure Jwt where
  claims : TokenClaims
  sig : String × TokenClaims
deriving Repr, DecidableEq

/-- JwtUtil.createToken (lines 69-80): sets the claims map, subject,
issued-at now and expiry now plus the configured lifetime, then signs. -/
def JwtUtil.createToken (key : String) (role : Option String) (userId : Option Nat)
    (subject : String) (now expiration : Nat) : Jwt :=
  let c : TokenClaims :=
    { role := role, userId := userId, sub := subject, iat := now, exp := now + expiration }
  { claims := c, sig := signPayload key c }

/-- JwtUtil.generateToken(User) (lines 44-49): claims map holding the role
enum name and the user id. -/
def JwtUtil.generateTokenUser (key : String) (u : User) (now expiration : Nat) : Jwt :=
  JwtUtil.createToken key (some u.role.name) (some u.id) u.email now expiration

/-- JwtUtil.generateToken(UserDetails) (lines 57-60): an empty claims map,
subject only. -/
def JwtUtil.generateTokenUserDetails (key : String) (username : String)
    (now expiration : Nat) : Jwt :=
  JwtUtil.createToken key none none username now expiration

inductive JwtErr where
  | invalid
  | expired
deriving Repr, DecidableEq

/-- JwtUtil.extractAllClaims (lines 130-136): the JJWT parser verifies the
signature (SignatureException, modelled as invalid, on mismatch or malformed
input) and then applies its expiry check with zero allowed clock skew, which
throws ExpiredJwtException exactly when the current time is strictly after
the expiry instant. -/
def JwtUtil.extractAllClaims (key : String) (t : Jwt) (now : Nat) :
    Except JwtErr TokenClaims :=
  if t.sig ≠ signPayload key t.claims then .error .invalid
  else if t.claims.exp < now then .error .expired
  else .ok t.claims

/-- JwtUtil.extractExpiration (lines 108-110). -/
def JwtUtil.extractExpiration (key : String) (t : Jwt) (now : Nat) : Except JwtErr Nat :=
  (JwtUtil.extractAllClaims key t now).map (fun c => c.exp)

/-- JwtUtil.isTokenExpired (lines 144-151): compares the extracted expiry
with the current instant (Date.before, a strict comparison) and returns true
when extraction throws. -/
def JwtUtil.isTokenExpired (key : String) (t : Jwt) (now : Nat) : Bool :=
  match JwtUtil.extractExpiration key t now with
  | .ok e => decide (e < now)
  | .error _ => true

/-- JwtUtil.validateToken(String) (lines 176-183): a token is accepted when
it is not expired; the catch branch adds nothing because isTokenExpired
already catches every parse failure. -/
def JwtUtil.validateToken (key : String) (t : Jwt) (now : Nat) : Bool :=
  !(JwtUtil.isTokenExpired key t now)

/-- JwtUtil.extractUserRole (lines 207-215): the role entry of the verified
claims, none when absent or when parsing fails. -/
def JwtUtil.extractUserRole (key : String) (t : Jwt) (now : Nat) : Option String :=
  match JwtUtil.extractAllClaims key t now with
  | .ok c => c.role
  | .error _ => none

/-- JwtUtil.extractUserId (lines 191-199). -/
def JwtUtil.extractUserId (key : String) (t : Jwt) (now : Nat) : Option Nat :=
  match JwtUtil.extractAllClaims key t now with
  | .ok c => c.userId
  | .error _ => none

/-! ## Authenticator (service/AuthService.java) -/

inductive AuthErr where
  | badCredentials
  | emailExists
deriving Repr, DecidableEq

/-- Response dto/AuthResponse.java: token plus user fields. -/
structure AuthResponse where
  token : Jwt
  tokenType : String
  userId : Nat
  email : String
  role : Role
deriving Repr, DecidableEq

def AuthResponse.ofUser (t : Jwt) (u : User) : AuthResponse :=
  { token := t, tokenType := "Bearer", userId := u.id, email := u.email, role := u.role }

/-- AuthService.authenticate (lines 268-295). The credential check runs
through the Spring AuthenticationManager backed by CustomUserDetailsService,
a class not present under the sources; that step is modelled from the spec:
looks up the identity by email and fails Unauthorized when the identity is
absent or the password hash does not match. On success the code loads the
user details and calls generateToken(UserDetails), the overload with the
empty claims map, then returns the token beside the user row. -/
def AuthService.authenticate (db : AuthDb) (key : String) (now expiration : Nat)
    (email password : String) : Except AuthErr AuthResponse :=
  match findByEmail db email with
  | none => .error .badCredentials
  | some u =>
      if passwordMatches password u.password then
        .ok (AuthResponse.ofUser (JwtUtil.generateTokenUserDetails key email now expiration) u)
      else .error .badCredentials

/-- AuthService.register (lines 304-329): rejects an existing email before
touching the table, otherwise persists a new identity with role USER and the
hashed password, and issues a token through generateToken(User). The second
component is the resulting users table. -/
def AuthService.register (db : AuthDb) (key : String) (now expiration : Nat)
    (email password : String) : Except AuthErr AuthResponse × AuthDb :=
  if existsByEmail db email then (.error .emailExists, db)
  else
    let u : User :=
      { id := db.nextId, email := email, password := encodePassword password, role := .USER }
    let db' : AuthDb := { users := db.users ++ [u], nextId := db.nextId + 1 }
    (.ok (AuthResponse.ofUser (JwtUtil.generateTokenUser key u now expiration) u), db')

/-! ## Helper lemmas -/

theorem wrap32_eq_self {x : Int} (h1 : INT_MIN ≤ x) (h2 : x ≤ INT_MAX) : wrap32 x = x := by
  unfold INT_MIN at h1
  unfold INT_MAX at h2
  unfold wrap32
  omega

theorem wrap32_bounds (x : Int) : INT_MIN ≤ wrap32 x ∧ wrap32 x ≤ INT_MAX := by
  unfold INT_MIN INT_MAX wrap32
  omega

theorem findById_id {db : Db} {id : Nat} {p : Product} (h : findById db id = some p) :
    p.id = id := by
  have := List.find?_some h
  simpa using this

theorem findById_replace {db : Db} {id : Nat} {q : Product} (hq : q.id = id)
    (h : (findById db id).isSome) :
    findById (db.map (fun r => if r.id = id then q else r)) id = some q := by
  induction db with
  | nil => simp [findById] at h
  | cons r rs ih =>
      by_cases hr : r.id = id
      · simp [findById, List.find?, hr, hq]
      · have hne : (r.id == id) = false := by simp [hr]
        simp only [findById, List.map_cons, List.find?] at h ⊢
        rw [if_neg hr]
        rw [hne] at h ⊢
        exact ih h

theorem clauseName_iff (name : Option String) (p : Product) :
    clauseName name p = true ↔ ∀ n, name = some n → nameLikeCond n p = true := by
  cases name <;> simp [clauseName]

theorem clauseCategory_iff (category : Option String) (p : Product) :
    clauseCategory category p = true ↔ ∀ c, category = some c → p.category = some c := by
  cases category <;> simp [clauseCategory]

theorem clauseMinPrice_iff (minPrice : Option Int) (p : Product) :
    clauseMinPrice minPrice p = true ↔ ∀ m, minPrice = some m → m ≤ p.price := by
  cases minPrice <;> simp [clauseMinPrice]

theorem clauseMaxPrice_iff (maxPrice : Option Int) (p : Product) :
    clauseMaxPrice maxPrice p = true ↔ ∀ m, maxPrice = some m → p.price ≤ m := by
  cases maxPrice <;> simp [clauseMaxPrice]

theorem clauseInStock_iff (inStock : Option Bool) (p : Product) :
    clauseInStock inStock p = true ↔ (inStock = some true → 0 < p.stockQuantity) := by
  cases inStock with
  | none => simp [clauseInStock]
  | some b => cases b <;> simp [clauseInStock]

/-! ## Sample rows used by witnesses and counterexamples -/

def pWidget : Product :=
  { id := 1, name := "Widget", description := none, price := 999,
    category := some "Tools", stockQuantity := 5, createdAt := 0, updatedAt := 0 }

def dbWidget : Db := [pWidget]

def pAB : Product :=
  { id := 2, name := "ab", description := none, price := 100,
    category := none, stockQuantity := 3, createdAt := 0, updatedAt := 0 }

def dbAB : Db := [pAB]

def authDb0 : AuthDb := { users := [], nextId := 1 }

/-! ## Claim theorems -/

/-- C10: passing the in-stock criterion as false is the same as omitting it:
the disjunct of the query that accepts every row when the parameter is false
makes the two searches return the same list. -/
theorem search_inStock_false_eq_absent (db : Db) (name category : Option String)
    (minPrice maxPrice : Option Int) :
    ProductService.searchProducts db name category minPrice maxPrice (some false) =
      ProductService.searchProducts db name category minPrice maxPrice none := by
  unfold ProductService.searchProducts ProductRepository.searchProducts
  refine congrArg (List.map ProductResponse.ofProduct) (List.filter_congr ?_)
  intro p _
  simp [clauseInStock]

/-- C3 (amended): validateToken accepts a token exactly when its signature
verifies against the signing key AND the current time is at most (not
strictly below) the embedded expiry; equivalently it fails whenever the
current time is strictly past the expiry, even with a valid signature. -/
theorem validateToken_iff_sig_and_not_past_exp (key : String) (t : Jwt) (now : Nat) :
    JwtUtil.validateToken key t now = true ↔
      (t.sig = signPayload key t.claims ∧ now ≤ t.claims.exp) := by
  unfold JwtUtil.validateToken JwtUtil.isTokenExpired JwtUtil.extractExpiration
    JwtUtil.extractAllClaims
  by_cases hs : t.sig = signPayload key t.claims <;>
    by_cases he : t.claims.exp < now <;>
      simp [hs, he, Except.map] <;> omega

/-- C3 counterexample: a well-signed token whose expiry equals the current
instant is accepted by validateToken, although the claim requires failure
whenever current time is greater than or equal to the expiry. -/
theorem validateToken_boundary_counterexample :
    JwtUtil.validateToken "k" (JwtUtil.createToken "k" none none "alice" 3 0) 3 = true ∧
      (JwtUtil.createToken "k" none none "alice" 3 0).claims.exp ≤ 3 := by
  constructor
  · rfl
  · decide

/-- C6 (amended): a paged products request whose sort field names no Product
attribute raises PropertyReferenceException out of the repository; the
controller does not catch it, and the global handler maps it, as a plain
RuntimeException, to HTTP 500 Internal, not to a 400 ValidationError. -/
theorem unknown_sort_field_internal_error (db : Db) (page size : Nat)
    (sortBy sortDir : String) (hsize : size ≠ 0) (hsort : sortBy ∉ productProperties) :
    ProductController.getAllProducts db page size sortBy sortDir =
        .error (.propertyReference sortBy) ∧
      GlobalExceptionHandler.statusOf (.propertyReference sortBy) = 500 := by
  constructor
  · unfold ProductController.getAllProducts
    rw [if_neg hsize, if_neg hsort]
  · rfl

/-- C6 counterexample: sorting by the unknown field foo produces the 500
Internal response, not the 400 the claim requires. -/
theorem unknown_sort_field_counterexample :
    ProductController.getAllProducts dbWidget 0 10 "foo" "asc" =
        .error (.propertyReference "foo") ∧
      GlobalExceptionHandler.statusOf (.propertyReference "foo") = 500 ∧
      (500 : Nat) ≠ 400 := by
  refine ⟨?_, rfl, by decide⟩
  unfold ProductController.getAllProducts
  rw [if_neg (by decide), if_neg (by decide)]

/-- C6 witness. -/
theorem unknown_sort_field_witness :
    ProductController.getAllProducts dbAB 1 5 "bar" "desc" =
        .error (.propertyReference "bar") ∧
      GlobalExceptionHandler.statusOf (.propertyReference "bar") = 500 :=
  unknown_sort_field_internal_error dbAB 1 5 "bar" "desc" (by decide) (by decide)

/-- C5 (amended): updateStock with delta zero is accepted, not rejected: the
call succeeds and is a frame-preserving no-op. Neither stock branch runs, the
entity saved back equals the stored row, so Hibernate issues no UPDATE and
the auditing callback never fires: the table, hence every field of the
product including updatedAt, is unchanged, and the unchanged product is
returned. -/
theorem updateStock_zero_noop (db : Db) (id : Nat) (now : Nat) (p : Product)
    (h : findById db id = some p) :
    ProductService.updateStock db id 0 now = (.ok (ProductResponse.ofProduct p), db) := by
  have hpid : p.id = id := findById_id h
  simp only [ProductService.updateStock, h]
  rw [if_neg (show ¬ ((0 : Int) > 0) by norm_num), if_neg (show ¬ ((0 : Int) < 0) by norm_num)]
  simp only [saveProduct, hpid, h]
  simp

/-- C5 counterexample: a zero-delta stock update on an existing product
returns a successful response carrying the unchanged product; it is not
treated as invalid input. -/
theorem updateStock_zero_accepted_counterexample :
    ProductService.updateStock dbWidget 1 0 7 =
        (.ok (ProductResponse.ofProduct pWidget), dbWidget) ∧
      (ProductService.updateStock dbWidget 1 0 7).1.isOk = true := by
  constructor <;> rfl

/-- C5 witness. -/
theorem updateStock_zero_witness :
    ProductService.updateStock dbAB 2 0 11 = (.ok (ProductResponse.ofProduct pAB), dbAB) :=
  updateStock_zero_noop dbAB 2 11 pAB (by decide)

/-- C2 (amended): a negative delta whose magnitude exceeds the current stock
always makes updateStock throw (surfacing as a 400 through the controller)
and always leaves the table, hence the stock quantity, unchanged. For every
such delta other than the most negative Java int the carried message is
Insufficient stock; at delta equal to -2^31 the Math.abs overflow makes the
positivity guard fire instead. -/
theorem updateStock_insufficient_fails_unchanged (db : Db) (id : Nat) (q : Int) (now : Nat)
    (p : Product) (h : findById db id = some p) (hrange : INT_MIN ≤ q) (hneg : q < 0)
    (hgt : p.stockQuantity < -q) :
    (∃ msg, ProductService.updateStock db id q now = (.error (.runtimeMessage msg), db)) ∧
      stockOf (ProductService.updateStock db id q now).2 id = stockOf db id ∧
      (q ≠ INT_MIN → ProductService.updateStock db id q now =
        (.error (.runtimeMessage "Insufficient stock"), db)) := by
  have hnotpos : ¬ (q > 0) := by omega
  by_cases hmin : q = INT_MIN
  · have habs : javaAbs q = INT_MIN := by
      subst hmin
      unfold javaAbs INT_MIN wrap32
      norm_num
    have hE : ProductService.updateStock db id q now =
        (.error (.runtimeMessage "Quantity must be positive"), db) := by
      simp only [ProductService.updateStock, h]
      rw [if_neg hnotpos, if_pos hneg]
      unfold Product.decreaseStock
      rw [habs, if_pos (show INT_MIN ≤ (0 : Int) by unfold INT_MIN; norm_num)]
      rfl
    refine ⟨⟨"Quantity must be positive", hE⟩, by rw [hE], fun hne => absurd hmin hne⟩
  · have habs : javaAbs q = -q := by
      unfold javaAbs
      rw [if_pos hneg]
      apply wrap32_eq_self
      · unfold INT_MIN
        omega
      · unfold INT_MIN at hrange hmin
        unfold INT_MAX
        omega
    have hE : ProductService.updateStock db id q now =
        (.error (.runtimeMessage "Insufficient stock"), db) := by
      simp only [ProductService.updateStock, h]
      rw [if_neg hnotpos, if_pos hneg]
      unfold Product.decreaseStock
      rw [habs, if_neg (show ¬ (-q ≤ 0) by omega), if_pos (show -q > p.stockQuantity by omega)]
      rfl
    exact ⟨⟨"Insufficient stock", hE⟩, by rw [hE], fun _ => hE⟩

/-- C2 counterexample: at delta equal to -2^31 the magnitude exceeds any
stock, yet the failure message is Quantity must be positive, not the
Insufficient stock message the claim names, because Math.abs of the most
negative int overflows back to a negative value. -/
theorem updateStock_min_int_counterexample :
    ProductService.updateStock dbWidget 1 (-(2 ^ 31)) 7 =
        (.error (.runtimeMessage "Quantity must be positive"), dbWidget) ∧
      (-(2 ^ 31) : Int) < 0 ∧ pWidget.stockQuantity < 2 ^ 31 ∧
      "Quantity must be positive" ≠ "Insufficient stock" := by
  refine ⟨by rfl, by decide, by decide, by decide⟩

/-- C2 witness. -/
theorem updateStock_insufficient_witness :
    ProductService.updateStock dbWidget 1 (-7) 9 =
      (.error (.runtimeMessage "Insufficient stock"), dbWidget) :=
  (updateStock_insufficient_fails_unchanged dbWidget 1 (-7) 9 pWidget (by decide) (by decide)
    (by decide) (by decide)).2.2 (by decide)

/-- C7 (amended): the search result is exactly the products of the catalog
satisfying the conjunction of the present criteria, where a present name
criterion is matched as a case-insensitive SQL LIKE pattern (its percent and
underscore characters act as wildcards; for a criterion without wildcard
characters this is plain substring containment), category is an exact match,
the price bounds are inclusive, in-stock-only means stock above zero, and
absent criteria impose no constraint; an inverted price range returns the
empty list rather than an error. -/
theorem search_conjunction_like_semantics :
    ∀ (db : Db) (name category : Option String) (minPrice maxPrice : Option Int)
      (inStock : Option Bool) (p : Product),
      (p ∈ ProductRepository.searchProducts db name category minPrice maxPrice inStock ↔
        p ∈ db ∧ (∀ n, name = some n → nameLikeCond n p = true) ∧
          (∀ c, category = some c → p.category = some c) ∧
          (∀ m, minPrice = some m → m ≤ p.price) ∧
          (∀ m, maxPrice = some m → p.price ≤ m) ∧
          (inStock = some true → 0 < p.stockQuantity)) ∧
      (∀ lo hi : Int, hi < lo →
        ProductService.searchProducts db name category (some lo) (some hi) inStock = []) := by
  intro db name category minPrice maxPrice inStock p
  constructor
  · unfold ProductRepository.searchProducts
    rw [List.mem_filter]
    simp only [Bool.and_eq_true]
    rw [clauseName_iff, clauseCategory_iff, clauseMinPrice_iff, clauseMaxPrice_iff,
      clauseInStock_iff]
    tauto
  · intro lo hi hlt
    have hnil : ProductRepository.searchProducts db name category (some lo) (some hi) inStock
        = [] := by
      apply List.filter_eq_nil_iff.mpr
      intro a _ hca
      simp only [Bool.and_eq_true] at hca
      obtain ⟨⟨⟨⟨_, _⟩, hmin⟩, hmax⟩, _⟩ := hca
      simp only [clauseMinPrice, clauseMaxPrice, decide_eq_true_eq] at hmin hmax
      omega
    unfold ProductService.searchProducts
    rw [hnil]
    rfl

/-- C7 counterexample: with the single-product catalog holding the name ab,
the name criterion percent (a LIKE wildcard) returns that product although
percent is not a substring of ab, so the result is not the set of products
satisfying a substring criterion. -/
theorem search_like_wildcard_counterexample :
    ProductRepository.searchProducts dbAB (some "%") none none none none = [pAB] ∧
      specNameSubstring "%" pAB = false := by
  constructor <;> decide

/-- C7 witness. -/
theorem search_inverted_range_witness :
    ProductService.searchProducts dbWidget none none (some 100) (some 50) none = [] :=
  (search_conjunction_like_semantics dbWidget none none none none none pWidget).2 100 50
    (by norm_num)

/-- JJWT parsing of a freshly created token: the signature verifies by
construction and, while the checking instant is at most the expiry, the
parser returns the embedded claims. -/
theorem extractAllClaims_createToken (key : String) (role : Option String)
    (userId : Option Nat) (subject : String) (now expiration now2 : Nat)
    (h : now2 ≤ now + expiration) :
    JwtUtil.extractAllClaims key (JwtUtil.createToken key role userId subject now expiration)
        now2 =
      .ok { role := role, userId := userId, sub := subject, iat := now,
            exp := now + expiration } := by
  unfold JwtUtil.extractAllClaims JwtUtil.createToken
  rw [if_neg (by simp), if_neg (by show ¬ (now + expiration < now2); omega)]

/-- C4: register fails with the duplicate-email conflict exactly when an
identity with that email exists, for every supplied password, and the
failure writes nothing; otherwise it creates the identity with role USER
(the request carries only email and password, so the role can never come
from the client) and issues a token embedding role USER and the fresh user
id. -/
theorem register_conflict_iff_email_exists :
    ∀ (db : AuthDb) (key : String) (now expiration : Nat) (email password : String),
      (existsByEmail db email = true →
        AuthService.register db key now expiration email password = (.error .emailExists, db)) ∧
      (existsByEmail db email = false →
        AuthService.register db key now expiration email password =
          (.ok (AuthResponse.ofUser
              (JwtUtil.generateTokenUser key
                { id := db.nextId, email := email, password := encodePassword password,
                  role := .USER } now expiration)
              { id := db.nextId, email := email, password := encodePassword password,
                role := .USER }),
            { users := db.users ++
                [{ id := db.nextId, email := email, password := encodePassword password,
                   role := .USER }],
              nextId := db.nextId + 1 }) ∧
        JwtUtil.extractUserRole key
            (JwtUtil.generateTokenUser key
              { id := db.nextId, email := email, password := encodePassword password,
                role := .USER } now expiration) now = some "USER" ∧
        JwtUtil.extractUserId key
            (JwtUtil.generateTokenUser key
              { id := db.nextId, email := email, password := encodePassword password,
                role := .USER } now expiration) now = some db.nextId) := by
  intro db key now expiration email password
  constructor
  · intro hex
    unfold AuthService.register
    rw [if_pos hex]
  · intro hex
    refine ⟨?_, ?_, ?_⟩
    · unfold AuthService.register
      rw [if_neg (by simp [hex])]
    · unfold JwtUtil.extractUserRole JwtUtil.generateTokenUser
      rw [extractAllClaims_createToken key _ _ _ now expiration now (by omega)]
      try rfl
    · unfold JwtUtil.extractUserId JwtUtil.generateTokenUser
      rw [extractAllClaims_createToken key _ _ _ now expiration now (by omega)]
      try rfl

def authDbDup : AuthDb :=
  { users := [{ id := 1, email := "a@b", password := "x", role := .ADMIN }], nextId := 2 }

/-- C4 witness. -/
theorem register_conflict_witness :
    AuthService.register authDbDup "k" 0 9 "a@b" "other" = (.error .emailExists, authDbDup) ∧
      JwtUtil.extractUserRole "k"
          (JwtUtil.generateTokenUser "k"
            { id := 1, email := "new@x", password := encodePassword "pw", role := .USER }
            3 1000) 3 = some "USER" :=
  ⟨(register_conflict_iff_email_exists authDbDup "k" 0 9 "a@b" "other").1 (by decide),
    ((register_conflict_iff_email_exists authDb0 "k" 3 1000 "new@x" "pw").2 (by decide)).2.1⟩

/-- C1 (amended): a successful login issues a token whose claims map is
empty: it embeds only the subject (the email), issued-at and expiry, with no
role and no user id claim; the role USER after register-then-login is carried
by the response object beside the token, not embedded in the token, which is
issued through the UserDetails overload of generateToken. -/
theorem login_token_embeds_no_role_or_id :
    (∀ (db : AuthDb) (key : String) (now expiration : Nat) (email password : String)
        (resp : AuthResponse),
        AuthService.authenticate db key now expiration email password = .ok resp →
          resp.token = JwtUtil.generateTokenUserDetails key email now expiration ∧
          resp.token.claims.role = none ∧ resp.token.claims.userId = none ∧
          resp.token.claims.sub = email) ∧
    (∀ (db : AuthDb) (key : String) (now1 now2 expiration : Nat) (email password : String),
        existsByEmail db email = false →
          ∃ resp, AuthService.authenticate
              (AuthService.register db key now1 expiration email password).2
              key now2 expiration email password = .ok resp ∧
            resp.role = .USER ∧ resp.token.claims.role = none) := by
  constructor
  · intro db key now expiration email password resp h
    rcases hfe : findByEmail db email with _ | u
    · simp [AuthService.authenticate, hfe] at h
    · simp only [AuthService.authenticate, hfe] at h
      cases hpm : passwordMatches password u.password
      · simp [hpm] at h
      · simp only [hpm, if_true] at h
        obtain rfl : AuthResponse.ofUser
            (JwtUtil.generateTokenUserDetails key email now expiration) u = resp := by
          simpa using h
        exact ⟨rfl, rfl, rfl, rfl⟩
  · intro db key now1 now2 expiration email password hex
    have hfe0 : findByEmail db email = none := by
      unfold existsByEmail at hex
      exact Option.not_isSome_iff_eq_none.mp (by simp [hex])
    have hreg : (AuthService.register db key now1 expiration email password).2 =
        { users := db.users ++
            [{ id := db.nextId, email := email, password := encodePassword password,
               role := .USER }],
          nextId := db.nextId + 1 } := by
      unfold AuthService.register
      rw [if_neg (by simp [hex])]
    set u0 : User :=
      { id := db.nextId, email := email, password := encodePassword password, role := .USER }
      with hu0
    have hfe1 : findByEmail (AuthService.register db key now1 expiration email password).2
        email = some u0 := by
      rw [hreg]
      unfold findByEmail at hfe0 ⊢
      simp only [List.find?_append, hfe0, Option.none_or]
      simp [hu0]
    refine ⟨AuthResponse.ofUser
        (JwtUtil.generateTokenUserDetails key email now2 expiration) u0, ?_, rfl, rfl⟩
    simp only [AuthService.authenticate, hfe1]
    rw [if_pos (show passwordMatches password u0.password = true by
      simp [hu0, passwordMatches])]

/-- C1 counterexample: after register then login with the same fresh valid
credentials, login succeeds but the role claim embedded in the login-issued
token is none, not USER. -/
theorem login_token_role_counterexample :
    (AuthService.register authDb0 "k" 0 1000 "a@b.com" "pw").1.isOk = true ∧
      (AuthService.authenticate (AuthService.register authDb0 "k" 0 1000 "a@b.com" "pw").2
          "k" 5 1000 "a@b.com" "pw").map (fun r => r.token.claims.role) = .ok none ∧
      (none : Option String) ≠ some "USER" := by
  refine ⟨rfl, rfl, by decide⟩

/-- C1 witness. -/
theorem login_token_witness :
    ∃ resp, AuthService.authenticate
        (AuthService.register authDb0 "kk" 2 50 "u@v" "s").2 "kk" 9 50 "u@v" "s" = .ok resp ∧
      resp.role = .USER ∧ resp.token.claims.role = none :=
  login_token_embeds_no_role_or_id.2 authDb0 "kk" 2 9 50 "u@v" "s" (by decide)

/-- C9: over a catalog of 25 products, the paged read with page 0 and size 10
returns exactly 10 items with three total pages, first true and last false,
and page 2 with size 10 returns exactly 5 items with last true, whatever
valid sort is requested. -/
theorem paginate_25_items :
    ∀ (db : Db) (sortBy sortDir : String), db.length = 25 → sortBy ∈ productProperties →
      ∃ P0 P2 : PageResult ProductResponse,
        ProductController.getAllProducts db 0 10 sortBy sortDir = .ok P0 ∧
        P0.content.length = 10 ∧ P0.totalPages = 3 ∧ P0.first = true ∧ P0.last = false ∧
        ProductController.getAllProducts db 2 10 sortBy sortDir = .ok P2 ∧
        P2.content.length = 5 ∧ P2.last = true := by
  intro db sortBy sortDir hlen hsb
  have h10 : ¬ ((10 : Nat) = 0) := by norm_num
  unfold ProductController.getAllProducts
  rw [if_neg h10, if_pos hsb, if_neg h10, if_pos hsb]
  refine ⟨_, _, rfl, ?_, ?_, ?_, ?_, rfl, ?_, ?_⟩ <;>
    simp [pageOf, PageResult.map, List.length_mergeSort, hlen]

def db25 : Db :=
  (List.range 25).map (fun i =>
    { id := i, name := "P", description := none, price := 1, category := none,
      stockQuantity := 1, createdAt := 0, updatedAt := 0 })

/-- C9 witness. -/
theorem paginate_25_items_witness :
    ∃ P0 P2 : PageResult ProductResponse,
      ProductController.getAllProducts db25 0 10 "id" "asc" = .ok P0 ∧
      P0.content.length = 10 ∧ P0.totalPages = 3 ∧ P0.first = true ∧ P0.last = false ∧
      ProductController.getAllProducts db25 2 10 "id" "asc" = .ok P2 ∧
      P2.content.length = 5 ∧ P2.last = true :=
  paginate_25_items db25 "id" "asc" (by simp [db25]) (by decide)



/-- Saving a modified entity over an existing row: the row is found dirty,
updatedAt is refreshed and the row is replaced in place. -/
theorem saveProduct_dirty {db : Db} {id : Nat} {p p' : Product}
    (hfind : findById db id = some p) (hid : p'.id = id) (hne : ¬ (p = p')) (now : Nat) :
    saveProduct db p' now = ({ p' with updatedAt := now },
      db.map (fun r => if r.id = id then { p' with updatedAt := now } else r)) := by
  simp only [saveProduct, hid, hfind]
  rw [if_neg hne]

/-- C8: for a product with an in-range stock and a positive in-range delta,
adding the delta and then subtracting it, both calls succeeding, restores the
original stock quantity. -/
theorem adjustStock_roundtrip (db : Db) (id : Nat) (q : Int) (now1 now2 : Nat) (p : Product)
    (hfind : findById db id = some p)
    (hlo : INT_MIN ≤ p.stockQuantity) (hhi : p.stockQuantity ≤ INT_MAX)
    (hq : 0 < q) (hqmax : q ≤ INT_MAX)
    (h1 : (ProductService.updateStock db id q now1).1.isOk = true)
    (h2 : (ProductService.updateStock (ProductService.updateStock db id q now1).2 id (-q)
        now2).1.isOk = true) :
    stockOf (ProductService.updateStock (ProductService.updateStock db id q now1).2 id (-q)
        now2).2 id = some p.stockQuantity := by
  have hpid : p.id = id := findById_id hfind
  unfold INT_MIN at hlo
  unfold INT_MAX at hhi hqmax
  set p1 : Product :=
    { p with stockQuantity := wrap32 (p.stockQuantity + q), updatedAt := now1 } with hp1
  -- the first call increases the stock and writes the dirty entity back
  have hsneq : wrap32 (p.stockQuantity + q) ≠ p.stockQuantity := by
    unfold wrap32
    omega
  have hpneq : ¬ (p = { p with stockQuantity := wrap32 (p.stockQuantity + q) }) := by
    intro heq
    exact hsneq (congrArg Product.stockQuantity heq).symm
  have hsd1 := saveProduct_dirty hfind
    (show ({ p with stockQuantity := wrap32 (p.stockQuantity + q) } : Product).id = id
      from hpid)
    hpneq now1
  have e1 : ProductService.updateStock db id q now1 =
      (.ok (ProductResponse.ofProduct p1), db.map (fun r => if r.id = id then p1 else r)) := by
    simp only [ProductService.updateStock, hfind]
    rw [if_pos hq]
    unfold Product.increaseStock
    rw [if_neg (show ¬ (q ≤ 0) by omega)]
    dsimp only
    rw [hsd1]
  rw [e1] at h2 ⊢
  set db1 := db.map (fun r => if r.id = id then p1 else r) with hdb1
  have hfind1 : findById db1 id = some p1 :=
    findById_replace (show p1.id = id from hpid) (by rw [hfind]; rfl)
  -- the second call subtracts the same delta
  have habs : javaAbs (-q) = q := by
    unfold javaAbs
    rw [if_pos (show -q < 0 by omega)]
    rw [neg_neg]
    unfold wrap32
    omega
  have hstep2 : ¬ (q > p1.stockQuantity) := by
    intro hgt
    have e2bad : (ProductService.updateStock db1 id (-q) now2).1 =
        .error (.runtimeMessage "Insufficient stock") := by
      simp only [ProductService.updateStock, hfind1]
      rw [if_neg (show ¬ (-q > 0) by omega), if_pos (show -q < 0 by omega)]
      unfold Product.decreaseStock
      rw [habs, if_neg (show ¬ (q ≤ 0) by omega), if_pos hgt]
      rfl
    rw [e2bad] at h2
    simp [Except.isOk, Except.toBool] at h2
  have hle : q ≤ wrap32 (p.stockQuantity + q) := by
    simpa [hp1] using not_lt.mp hstep2
  have hs2 : wrap32 (wrap32 (p.stockQuantity + q) - q) = p.stockQuantity := by
    unfold wrap32 at hle ⊢
    omega
  set p2 : Product :=
    { p1 with stockQuantity := wrap32 (p1.stockQuantity - q), updatedAt := now2 } with hp2
  have hp1neq : ¬ (p1 = { p1 with stockQuantity := wrap32 (p1.stockQuantity - q) }) := by
    intro heq
    have hfld := (congrArg Product.stockQuantity heq).symm
    simp only [hp1] at hfld
    rw [hs2] at hfld
    exact hsneq hfld.symm
  have hsd2 := saveProduct_dirty hfind1
    (show ({ p1 with stockQuantity := wrap32 (p1.stockQuantity - q) } : Product).id = id
      from hpid)
    hp1neq now2
  have e2 : ProductService.updateStock db1 id (-q) now2 =
      (.ok (ProductResponse.ofProduct p2), db1.map (fun r => if r.id = id then p2 else r)) := by
    simp only [ProductService.updateStock, hfind1]
    rw [if_neg (show ¬ (-q > 0) by omega), if_pos (show -q < 0 by omega)]
    unfold Product.decreaseStock
    rw [habs, if_neg (show ¬ (q ≤ 0) by omega), if_neg hstep2]
    dsimp only
    rw [hsd2]
  rw [e2]
  have hfind2 : findById (db1.map (fun r => if r.id = id then p2 else r)) id = some p2 :=
    findById_replace (show p2.id = id from hpid) (by rw [hfind1]; rfl)
  unfold stockOf
  rw [hfind2]
  have hs3 : p2.stockQuantity = p.stockQuantity := by
    simp only [hp2, hp1]
    exact hs2
  show some p2.stockQuantity = some p.stockQuantity
  rw [hs3]

def dbRound : Db :=
  [{ id := 9, name := "Gadget", description := some "round trip", price := 250,
     category := some "Tools", stockQuantity := 4, createdAt := 0, updatedAt := 0 }]

/-- C8 witness. -/
theorem adjustStock_roundtrip_witness :
    stockOf (ProductService.updateStock (ProductService.updateStock dbRound 9 6 1).2 9 (-6)
        2).2 9 = some 4 :=
  adjustStock_roundtrip dbRound 9 6 1 2
    { id := 9, name := "Gadget", description := some "round trip", price := 250,
      category := some "Tools", stockQuantity := 4, createdAt := 0, updatedAt := 0 }
    (by decide) (by decide) (by decide) (by decide) (by decide) (by decide) (by decide)
